import Mathlib

/-!
Shallow embedding of `fictorial/sqlite-logger` (src/index.js) and proofs
about it.

The JavaScript module exports a single constructor `sqliteLogger({path,
maxAge, maxAgeInterval, teeStderr})` returning `{getLogger, getMessages,
close}` over one SQLite table `msgs (id, ctx, level, msg, data, ctime)`.

Modelling conventions:
- The table is a Lean list of `Row` values in insertion order; `id` is the
  autoincrement key, `ctime` the insertion timestamp (a `Nat`, abstracting
  SQLite datetime seconds; only its ordering matters to the claims).
- The `data` column holds the text `JSON.stringify(data)`.  We model the
  cell by the parsed JSON value (type `JVal`): `JSON.parse` after
  `JSON.stringify` is the identity (deep equality) on every value
  representable in `JVal` (null, booleans, integers, strings, arrays,
  string-keyed objects), so storing the abstract syntax tree instead of its
  text is faithful for everything the claims observe.
- JavaScript truthiness, `parseInt`, the `undefined`-vs-`false` outcome of
  `maxLevel === undefined && namedLevels.info`, and JavaScript `<=` on
  those outcomes are modelled explicitly, since several claims hinge on
  them.
- Fallible steps (a throwing stderr stream, a failing delete or vacuum)
  are modelled with `Except`: the JS exception is the `.error` branch.
-/

namespace SqliteLogger

/-- JSON-representable values, the domain of the `data` payload.
`JSON.stringify` then `JSON.parse` is the identity on these, so the stored
text cell is modelled by the value itself. -/
inductive JVal where
  | jnull : JVal
  | jbool : Bool → JVal
  | jnum : Int → JVal
  | jstr : String → JVal
  | jarr : List JVal → JVal
  | jobj : List (String × JVal) → JVal

/-- JavaScript truthiness of a `JVal`: `null`, `false`, `0` and the empty
string are falsy; every other value, in particular every array and every
object, is truthy. -/
def JVal.truthy : JVal → Bool
  | .jnull => false
  | .jbool b => b
  | .jnum n => n != 0
  | .jstr s => s != ""
  | .jarr _ => true
  | .jobj _ => true

/-- the `namedLevels` lookup object `{debug: 0, info: 1, warn: 2, error: 3}`;
`none` models the JS `undefined` of a missing key. -/
def namedLevels (s : String) : Option Nat :=
  if s = "debug" then some 0
  else if s = "info" then some 1
  else if s = "warn" then some 2
  else if s = "error" then some 3
  else none

/-- the `reverseNamedLevels` lookup object `{0: DEBUG, 1: INFO, 2: WARN,
3: ERROR}`; `none` models the JS `undefined` of a missing key. -/
def reverseNamedLevels (n : Nat) : Option String :=
  if n = 0 then some "DEBUG"
  else if n = 1 then some "INFO"
  else if n = 2 then some "WARN"
  else if n = 3 then some "ERROR"
  else none

/-- One row of the `msgs` table.  `data` is the stored JSON cell:
`none` is the SQL `NULL`, `some v` the text `JSON.stringify v` (see the
module comment). -/
structure Row where
  id : Nat
  ctx : String
  level : Nat
  msg : String
  data : Option JVal
  ctime : Nat

/-- The `msgs` table: rows in insertion order plus the next autoincrement
id. -/
structure DB where
  rows : List Row
  nextId : Nat

/-- a freshly created store (the `create table if not exists` result). -/
def emptyDB : DB := ⟨[], 0⟩

/-- the write-path serialization `data = data ? JSON.stringify(data) : null`:
`none` models an absent (`undefined`) argument, and every falsy value is
also mapped to the SQL `NULL`. -/
def serializeData : Option JVal → Option JVal
  | some v => if v.truthy then some v else none
  | none => none

/-- the body of `log(ctx, level, msg, data)`.  It first serializes `data`
and runs the `insert`, then looks up `reverseNamedLevels[level]` (a
`TypeError` on a level outside 0..3 — never reached from the four
bindings), then, when `teeStderr` was set, writes the formatted line to
`process.stderr`.  `stderrFails` says whether that stream write throws;
there is no catch anywhere in `log`, so the throw propagates in the
`.error` branch, after the insert has already been committed. -/
def log (st : DB) (teeStderr stderrFails : Bool) (now : Nat) (ctx : String)
    (level : Nat) (msg : String) (data : Option JVal) :
    DB × Except String Unit :=
  let st' : DB :=
    ⟨st.rows ++ [⟨st.nextId, ctx, level, msg, serializeData data, now⟩],
     st.nextId + 1⟩
  match reverseNamedLevels level with
  | none => (st', .error "TypeError: reverseNamedLevels[level] is undefined")
  | some _ =>
    if teeStderr then
      if stderrFails then (st', .error "stderr stream write threw")
      else (st', .ok ())
    else (st', .ok ())

/-- ASCII lowercasing of one character, the effect of
`String.prototype.toLowerCase` on the characters that can contribute to a
`namedLevels` key (no character outside A–Z lowercases onto the ASCII
letters of `debug`, `info`, `warn` or `error`). -/
def lowerChar (c : Char) : Char :=
  if 65 ≤ c.toNat ∧ c.toNat ≤ 90 then Char.ofNat (c.toNat + 32) else c

/-- the call `maxLevel.toLowerCase()`, modelled characterwise by
`lowerChar`. -/
def toLowerJS (s : String) : String := ⟨s.data.map lowerChar⟩

/-- the `maxLevel` argument of `getLogger` as JavaScript receives it: a
string, a number, or `undefined` (omitted). -/
inductive MaxLevelArg where
  | str : String → MaxLevelArg
  | num : Int → MaxLevelArg
  | undef : MaxLevelArg
deriving DecidableEq, Repr

/-- the JavaScript value `maxLevel` holds after the reassignment at the
top of `getLogger`: a number, `undefined`, or the boolean `false`. -/
inductive GateVal where
  | num : Int → GateVal
  | undef : GateVal
  | fls : GateVal
deriving DecidableEq, Repr

/-- the reassignment of `maxLevel` in `getLogger`: a string goes through
`namedLevels[maxLevel.toLowerCase()]` (possibly `undefined`); otherwise
`maxLevel = maxLevel === undefined && namedLevels.info`, which is the
number 1 when the argument was omitted but the boolean `false` when a
number was passed (`&&` returns its first falsy operand). -/
def resolveMaxLevel : MaxLevelArg → GateVal
  | .str s =>
    match namedLevels (toLowerJS s) with
    | some n => .num n
    | none => .undef
  | .num _ => .fls
  | .undef => .num 1

/-- the JavaScript comparison `maxLevel <= s` for a severity `s`:
a number compares numerically, `undefined` makes every comparison false
(NaN), and `false` coerces to 0. -/
def jsLe (g : GateVal) (s : Nat) : Bool :=
  match g with
  | .num n => n ≤ (s : Int)
  | .undef => false
  | .fls => (0 : Int) ≤ (s : Int)

/-- the ternary condition choosing between `log.bind(null, ctx, s)` and
`nop` for the severity-`s` entry of the returned handle. -/
def methodEnabled (arg : MaxLevelArg) (s : Nat) : Bool :=
  jsLe (resolveMaxLevel arg) s

/-- one call of the severity-`s` method of the handle
`getLogger(ctx, arg)`: either the bound `log` or the `nop` that returns
leaving the store untouched. -/
def severityCall (arg : MaxLevelArg) (ctx : String) (s : Nat) (st : DB)
    (teeStderr stderrFails : Bool) (now : Nat) (msg : String)
    (data : Option JVal) : DB × Except String Unit :=
  if methodEnabled arg s then log st teeStderr stderrFails now ctx s msg data
  else (st, .ok ())

/-- the constructor line
`maxAge = (maxAge !== undefined && maxAge) || 30 * 24 * 60 * 60 * 1000`:
when the option is absent the default applies; when it is present, `&&`
yields the value itself, and `||` replaces every falsy value — in
particular 0 — by the default. -/
def resolveMaxAge : Option Int → Int
  | none => 30 * 24 * 60 * 60 * 1000
  | some a => if a ≠ 0 then a else 30 * 24 * 60 * 60 * 1000

/-- the guard `if (maxAge > 0)` around the definition and first call of
`purge`: only when it holds is any purge ever run or scheduled. -/
def retentionScheduled (maxAge : Option Int) : Bool :=
  0 < resolveMaxAge maxAge

/-- state touched by one firing of `purge`: the table rows and whether a
next firing is scheduled (`timeout` holds a pending timer).  Entering a
firing consumes the pending timer. -/
structure PurgeState where
  rows : List Row
  timeoutScheduled : Bool

/-- one firing of `purge()`: run the delete
(`delete from msgs where ctime < datetime(now, -maxAge/1000 seconds)`),
then `vacuum`, then — as the last statement, with no try/catch — schedule
the next firing with `setTimeout(purge, maxAgeInterval)`.  `cutoff` is the
computed threshold (now minus maxAge), `deleteFails` and `vacuumFails`
say whether the respective storage call throws; a throw propagates
immediately, skipping everything after it. -/
def purgeFire (deleteFails vacuumFails : Bool) (cutoff : Nat)
    (st : PurgeState) : PurgeState × Except String Unit :=
  let entered : PurgeState := ⟨st.rows, false⟩
  if deleteFails then (entered, .error "delete threw")
  else
    let afterDelete : PurgeState :=
      ⟨entered.rows.filter (fun r => !(r.ctime < cutoff)), false⟩
    if vacuumFails then (afterDelete, .error "vacuum threw")
    else (⟨afterDelete.rows, true⟩, .ok ())

/-- JavaScript `parseInt(x, 10)` on a string: skip leading whitespace,
take an optional sign and then the longest digit prefix; `none` is `NaN`
(no digits found). -/
def parseIntJS (s : String) : Option Int :=
  let cs := s.data.dropWhile (fun c => c = ' ' ∨ c = '\t' ∨ c = '\n' ∨ c = '\r')
  let signAndRest : Int × List Char :=
    match cs with
    | '-' :: r => (-1, r)
    | '+' :: r => (1, r)
    | r => (1, r)
  let ds := signAndRest.2.takeWhile Char.isDigit
  if ds.isEmpty then none
  else some (signAndRest.1 * (ds.foldl (fun acc c => acc * 10 + (c.toNat - 48)) 0 : Nat))

/-- the options object of `getMessages({levels, ctxs, after, before,
limit})`; `none` is an absent (`undefined`) option.  `levels` entries are
the strings handed to `parseInt`. -/
structure GetMessagesOpts where
  levels : Option (List String) := none
  ctxs : Option (List String) := none
  after : Option Nat := none
  before : Option Nat := none
  limit : Option Nat := none

/-- the call `getMessages({})` with no option set. -/
def noOpts : GetMessagesOpts := {}

/-- the effective level set: `levels.map(x => parseInt(x, 10)).filter(x =>
!isNaN(x))`. -/
def effectiveLevels (ls : List String) : List Int :=
  (ls.map parseIntJS).filterMap id

/-- one record as returned by `getMessages`: the row spread plus `ctime`
as a date, `levelName` from `reverseNamedLevels`, and `data` run through
`row.data ? JSON.parse(row.data) : null`. -/
structure MsgOut where
  ctx : String
  level : Nat
  msg : String
  data : Option JVal
  ctime : Nat
  levelName : Option String

/-- the `.map(row => ({...row, ctime: new Date(row.ctime), levelName:
reverseNamedLevels[row.level], data: row.data ? JSON.parse(row.data) :
null}))` projection of one row. -/
def rowToOut (r : Row) : MsgOut :=
  { ctx := r.ctx
    level := r.level
    msg := r.msg
    data := match r.data with
            | some j => some j
            | none => none
    ctime := r.ctime
    levelName := reverseNamedLevels r.level }

/-- descending `ctime` order, the `order by ctime desc` of the query. -/
def ctimeDesc (a b : Row) : Prop := b.ctime ≤ a.ctime

instance : DecidableRel ctimeDesc := fun a b => by
  unfold ctimeDesc
  infer_instance

instance : IsTotal Row ctimeDesc :=
  ⟨fun a b => le_total b.ctime a.ctime⟩

instance : IsTrans Row ctimeDesc :=
  ⟨fun _ _ _ h h' => le_trans h' h⟩

/-- the combined `where` clause of `getMessages` applied to one row.
The `levels` clause is added only when the effective set is non-empty;
the `ctxs` clause is added whenever `ctxs` is truthy — also for the empty
array, producing `ctx in ()`, which SQLite permits and evaluates to false
for every row; `after` and `before` are strict bounds, skipped when falsy
(0). -/
def rowMatches (o : GetMessagesOpts) (r : Row) : Bool :=
  (match o.levels with
   | some ls =>
     let eff := effectiveLevels ls
     if eff.length > 0 then eff.contains (r.level : Int) else true
   | none => true) &&
  (match o.ctxs with
   | some cs => cs.contains r.ctx
   | none => true) &&
  (match o.after with
   | some a => if a ≠ 0 then decide (a < r.ctime) else true
   | none => true) &&
  (match o.before with
   | some b => if b ≠ 0 then decide (r.ctime < b) else true
   | none => true)

/-- `getMessages`: filter by the composed `where` clause, `order by ctime
desc`, apply `limit ?` when the option is truthy (a limit of 0 is falsy,
so no limit clause is added), and project each row. -/
def getMessages (st : DB) (o : GetMessagesOpts) : List MsgOut :=
  let matched := st.rows.filter (rowMatches o)
  let ordered := matched.insertionSort ctimeDesc
  let limited :=
    match o.limit with
    | some l => if l ≠ 0 then ordered.take l else ordered
    | none => ordered
  limited.map rowToOut

/-- the inserted row of one `log` call. -/
def newRow (st : DB) (now : Nat) (ctx : String) (level : Nat) (msg : String)
    (data : Option JVal) : Row :=
  ⟨st.nextId, ctx, level, msg, serializeData data, now⟩

/-- a store holding one record, a concrete input for the
counterexamples. -/
def dbOne : DB := ⟨[⟨0, "c", 1, "m", none, 5⟩], 1⟩

/-! Helper lemmas shared by the claim theorems. -/

theorem log_fst (st : DB) (tee fails : Bool) (now : Nat) (ctx : String)
    (level : Nat) (msg : String) (data : Option JVal) :
    (log st tee fails now ctx level msg data).1 =
      ⟨st.rows ++ [newRow st now ctx level msg data], st.nextId + 1⟩ := by
  unfold log newRow
  cases h : reverseNamedLevels level <;> cases tee <;> cases fails <;> simp [h]

theorem rowMatches_noOpts (r : Row) : rowMatches noOpts r = true := rfl

theorem rowMatches_limit (l : Option Nat) (r : Row) :
    rowMatches { limit := l } r = true := rfl

theorem filter_rowMatches_limit (rows : List Row) (l : Option Nat) :
    rows.filter (rowMatches { limit := l }) = rows :=
  List.filter_eq_self.mpr (fun r _ => rowMatches_limit l r)

theorem getMessages_noOpts (st : DB) :
    getMessages st noOpts = (st.rows.insertionSort ctimeDesc).map rowToOut := by
  show ((st.rows.filter (rowMatches noOpts)).insertionSort ctimeDesc).map rowToOut
    = (st.rows.insertionSort ctimeDesc).map rowToOut
  rw [List.filter_eq_self.mpr (fun r _ => rowMatches_noOpts r)]

/-! Claim theorems. -/

/-- C1: the claim says that constructing the store with `maxAge = 0`
disables retention entirely.  The code resolves the option with
`(maxAge !== undefined && maxAge) || default`, whose `||` replaces the
falsy 0 by the 30-day default, so the `if (maxAge > 0)` guard passes and
the purge loop runs and reschedules as usual; only a negative `maxAge`
actually disables it.  This contradicts the moduleʼs own JSDoc
(`0 to disable.`), so the claim is right and the code is wrong. -/
theorem maxAge_zero_still_schedules_retention :
    resolveMaxAge (some 0) = 30 * 24 * 60 * 60 * 1000 ∧
    retentionScheduled (some 0) = true ∧
    retentionScheduled (some (-1)) = false := by
  decide

/-- a supporting gating lemma (not itself settling a claim): for a handle
whose `maxLevel` resolved to the numeric level `m` — which every
recognized severity name and the omitted default do, but a passed integer
does not — the `s`-level method appends exactly one row carrying that
`ctx`, level `s` and `msg` when `s ≥ m`, and when `s < m` it is the
`nop`: the store is unchanged and nothing is thrown (the `nop` branch
never reaches `log`, so no insert and no stderr emission). -/
theorem severity_gating (arg : MaxLevelArg) (m : Nat) (_hm : m < 4)
    (hres : resolveMaxLevel arg = .num m) (s : Nat) (_hs : s < 4) (st : DB)
    (tee fails : Bool) (now : Nat) (ctx msg : String) (d : Option JVal) :
    (m ≤ s →
      (severityCall arg ctx s st tee fails now msg d).1.rows =
        st.rows ++ [newRow st now ctx s msg d]) ∧
    (s < m →
      severityCall arg ctx s st tee fails now msg d = (st, .ok ())) := by
  constructor
  · intro hle
    have hen : methodEnabled arg s = true := by
      simp [methodEnabled, hres, jsLe]
      exact_mod_cast hle
    simp only [severityCall, hen, if_true]
    rw [log_fst]
  · intro hlt
    have hen : methodEnabled arg s = false := by
      simp [methodEnabled, hres, jsLe]
      exact_mod_cast hlt
    simp [severityCall, hen]

/-- a concrete instance of `severity_gating`: the handle
`getLogger(ctx, "warn")` resolves to level 2; its `info` method
(severity 1) leaves the store untouched, and its `error` method
(severity 3) appends the one expected row. -/
theorem severity_gating_witness :
    (2 : Nat) < 4 ∧ resolveMaxLevel (.str "warn") = .num 2 ∧
    severityCall (.str "warn") "c" 1 emptyDB false false 0 "m" none =
      (emptyDB, .ok ()) ∧
    (severityCall (.str "warn") "c" 3 emptyDB false false 0 "m" none).1.rows =
      emptyDB.rows ++ [newRow emptyDB 0 "c" 3 "m" none] :=
  ⟨by decide, by decide,
   (severity_gating (.str "warn") 2 (by decide) (by decide) 1 (by decide)
      emptyDB false false 0 "c" "m" none).2 (by decide),
   (severity_gating (.str "warn") 2 (by decide) (by decide) 3 (by decide)
      emptyDB false false 0 "c" "m" none).1 (by decide)⟩

/-- C2: the claim says that for every handle created with a valid level
`m`, a call at severity `s < m` creates no record and has no side
effects — and the spec lets `maxLevel` be an integer as well as a name.
For `getLogger(ctx, 2)`, with `m = 2` a valid level, the debug call
(`s = 0 < 2`) nevertheless persists exactly one record with that ctx,
level 0 and the given msg, and returns normally: the non-string branch
collapses the passed integer to the boolean `false`, which gates as 0
(the same slip as C3).  The claim states the gate contract that the
JSDoc and the spec intend, so the claim is right and the code is wrong;
`severity_gating` above shows the contract does hold whenever `maxLevel`
resolves to a number, which the severity names and the omitted default
do but a passed integer never does.  The final conjunct contrasts the
name form of the same level, where the debug call is correctly a
no-op. -/
theorem valid_int_level_gate_violated :
    (severityCall (.num 2) "c" 0 emptyDB false false 0 "m" none).1.rows =
      [⟨0, "c", 0, "m", none, 0⟩] ∧
    (severityCall (.num 2) "c" 0 emptyDB false false 0 "m" none).2 =
      .ok () ∧
    severityCall (.str "warn") "c" 0 emptyDB false false 0 "m" none =
      (emptyDB, .ok ()) :=
  ⟨rfl, rfl, rfl⟩

/-- C3: the claim says an integer `maxLevel = m` gates like the name of
level `m`.  In the code the non-string branch runs
`maxLevel = maxLevel === undefined && namedLevels.info`, and for a passed
number the `===` test is false, so `&&` yields the boolean `false`;
JavaScript then coerces `false` to 0 in `maxLevel <= s`, enabling all four
methods.  So `getLogger(ctx, 2)` persists a DEBUG record where
`getLogger(ctx, "warn")` does not, although both should mean level 2.
The JSDoc documents the name strings as an alternative form of the same
parameter, so the integer form is intended to work: the claim is right
and the code is wrong.  (The omitted-argument branch is fine: it resolves
to INFO = 1.) -/
theorem int_maxLevel_not_gated :
    resolveMaxLevel (.num 2) = .fls ∧
    methodEnabled (.num 2) 0 = true ∧
    methodEnabled (.str "warn") 0 = false ∧
    (severityCall (.num 2) "c" 0 emptyDB false false 0 "m" none).1.rows.length
      = 1 ∧
    resolveMaxLevel .undef = .num 1 ∧
    methodEnabled .undef 0 = false ∧
    methodEnabled .undef 1 = true := by
  decide

/-- C4 counterexample: the claim says a `maxLevel` string that is not a
severity name yields the most permissive handle, all four methods
persisting.  In the code the lookup yields `undefined`, and every
JavaScript comparison `undefined <= s` is false (NaN), so all four
ternaries pick `nop`: with `maxLevel = "verbose"` not one of the four
methods stores anything. -/
theorem unrecognized_level_name_cex :
    namedLevels (toLowerJS "verbose") = none ∧
    (severityCall (.str "verbose") "c" 0 emptyDB false false 0 "m" none).1.rows.length = 0 ∧
    (severityCall (.str "verbose") "c" 1 emptyDB false false 0 "m" none).1.rows.length = 0 ∧
    (severityCall (.str "verbose") "c" 2 emptyDB false false 0 "m" none).1.rows.length = 0 ∧
    (severityCall (.str "verbose") "c" 3 emptyDB false false 0 "m" none).1.rows.length = 0 := by
  decide

/-- C4 amended: for every `maxLevel` string whose lowercasing is not a
recognized severity name, `getLogger` raises no error and returns a handle
all four of whose methods are no-ops — the most restrictive behavior, not
the most permissive: each call returns normally with the store
unchanged. -/
theorem unrecognized_level_name_nop (name : String)
    (h : namedLevels (toLowerJS name) = none) (s : Nat) (st : DB)
    (tee fails : Bool) (now : Nat) (ctx msg : String) (d : Option JVal) :
    severityCall (.str name) ctx s st tee fails now msg d = (st, .ok ()) := by
  simp [severityCall, methodEnabled, resolveMaxLevel, h, jsLe]

/-- C4 witness: the amended no-op behavior at `maxLevel = "verbose"`,
severity 0 (debug), on the fresh store. -/
theorem unrecognized_level_name_nop_witness :
    namedLevels (toLowerJS "verbose") = none ∧
    severityCall (.str "verbose") "c" 0 emptyDB false false 0 "m" none =
      (emptyDB, .ok ()) :=
  ⟨by decide,
   unrecognized_level_name_nop "verbose" (by decide) 0 emptyDB false false 0
     "c" "m" none⟩

theorem getMessages_no_limit (st : DB) (o : GetMessagesOpts)
    (h : o.limit = none) :
    getMessages st o =
      ((st.rows.filter (rowMatches o)).insertionSort ctimeDesc).map rowToOut := by
  simp only [getMessages, h]

theorem getMessages_some_limit (st : DB) (l : Nat) (hl : l ≠ 0) :
    getMessages st { limit := some l } =
      (((st.rows.filter (rowMatches { limit := some l })).insertionSort
        ctimeDesc).take l).map rowToOut := by
  simp only [getMessages, if_pos hl]

theorem getMessages_limit_zero (st : DB) :
    getMessages st { limit := some 0 } =
      ((st.rows.filter (rowMatches { limit := some 0 })).insertionSort
        ctimeDesc).map rowToOut := by
  simp [getMessages]

theorem rowMatches_levels (ls : List String) (r : Row) :
    rowMatches { levels := some ls } r =
      (if (effectiveLevels ls).length > 0 then
        (effectiveLevels ls).contains (r.level : Int)
      else true) := by
  simp [rowMatches, effectiveLevels]

theorem effectiveLevels_cons_none (x : String) (ls : List String)
    (h : parseIntJS x = none) :
    effectiveLevels (x :: ls) = effectiveLevels ls := by
  simp [effectiveLevels, h]

/-- C5 counterexample: the claim says every structured `data` value
round-trips deep-equal through write and `getMessages`.  The write path
runs `data = data ? JSON.stringify(data) : null`, so a falsy payload —
the boolean `false` here, likewise the number 0 or the empty string — is
stored as SQL `NULL` and read back as `null`, not deep-equal to the
original. -/
theorem falsy_data_cex :
    (JVal.jbool false).truthy = false ∧
    (getMessages (log emptyDB false false 0 "c" 1 "m"
        (some (.jbool false))).1 noOpts).map (fun m => m.data) = [none] :=
  ⟨rfl, rfl⟩

/-- C5 amended: for every truthy `data` value — in particular every array
and every object — writing and then reading through `getMessages` yields
a `data` field equal to the original (serialize then deserialize is the
identity on JSON-representable values); a falsy value is stored as null
exactly like an absent one; absent `data` reads back as null, never as an
empty structure or a serialized undefined. -/
theorem data_roundtrip (ctx msg : String) (now : Nat) (v : JVal) :
    (v.truthy = true →
      (getMessages (log emptyDB false false now ctx 1 msg (some v)).1
        noOpts).map (fun m => m.data) = [some v]) ∧
    (v.truthy = false →
      (getMessages (log emptyDB false false now ctx 1 msg (some v)).1
        noOpts).map (fun m => m.data) = [none]) ∧
    (getMessages (log emptyDB false false now ctx 1 msg none).1
      noOpts).map (fun m => m.data) = [none] := by
  refine ⟨fun hv => ?_, fun hv => ?_, ?_⟩
  · rw [log_fst, getMessages_noOpts]
    simp [emptyDB, newRow, rowToOut, serializeData, hv,
      List.insertionSort, List.orderedInsert]
  · rw [log_fst, getMessages_noOpts]
    simp [emptyDB, newRow, rowToOut, serializeData, hv,
      List.insertionSort, List.orderedInsert]
  · rw [log_fst, getMessages_noOpts]
    simp [emptyDB, newRow, rowToOut, serializeData,
      List.insertionSort, List.orderedInsert]

/-- C5 witness: the round-trip at the concrete object from the test
suite, the payload of `{foo: 42}`. -/
theorem data_roundtrip_witness :
    (JVal.jobj [("foo", JVal.jnum 42)]).truthy = true ∧
    (getMessages (log emptyDB false false 0 "c" 1 "m"
        (some (.jobj [("foo", .jnum 42)]))).1 noOpts).map (fun m => m.data)
      = [some (.jobj [("foo", .jnum 42)])] :=
  ⟨rfl, (data_roundtrip "c" "m" 0 (.jobj [("foo", .jnum 42)])).1 rfl⟩

/-- C6 counterexample: the claim says a present `limit` returns the first
`limit` records, but `limit: 0` is falsy, so the code adds no `limit`
clause at all: on a store with one record, `getMessages({limit: 0})`
returns that record rather than the empty first-0 prefix. -/
theorem limit_zero_cex :
    getMessages dbOne { limit := some 0 } ≠
      (getMessages dbOne noOpts).take 0 ∧
    (getMessages dbOne { limit := some 0 }).length = 1 := by
  constructor
  · intro h
    have h1 : (getMessages dbOne { limit := some 0 }).length = 1 := rfl
    rw [h] at h1
    simp at h1
  · rfl

/-- C6 amended: `getMessages` with no options returns every stored record
(a permutation of the table) ordered by `ctime` descending; a present
nonzero `limit` returns exactly the first `limit` records of that
descending order; an absent — or zero, since 0 is falsy in the
`if (limit)` guard — `limit` leaves the result unbounded. -/
theorem getMessages_order_and_limit (st : DB) (l : Nat) (hl : l ≠ 0) :
    (getMessages st noOpts).Perm (st.rows.map rowToOut) ∧
    (getMessages st noOpts).Pairwise (fun a b => b.ctime ≤ a.ctime) ∧
    getMessages st { limit := some l } = (getMessages st noOpts).take l ∧
    getMessages st { limit := some 0 } = getMessages st noOpts := by
  refine ⟨?_, ?_, ?_, ?_⟩
  · rw [getMessages_noOpts]
    exact (List.perm_insertionSort ctimeDesc st.rows).map rowToOut
  · rw [getMessages_noOpts]
    exact List.Pairwise.map rowToOut (fun a b hab => hab)
      (List.sorted_insertionSort ctimeDesc st.rows)
  · rw [getMessages_some_limit st l hl, getMessages_noOpts,
      List.filter_eq_self.mpr (fun r _ => rowMatches_limit (some l) r),
      List.map_take]
  · rw [getMessages_limit_zero st, getMessages_noOpts,
      List.filter_eq_self.mpr (fun r _ => rowMatches_limit (some 0) r)]

/-- C6 witness: the order, limit and zero-limit facts at the one-record
store and `limit = 1`. -/
theorem getMessages_order_and_limit_witness :
    (1 : Nat) ≠ 0 ∧
    ((getMessages dbOne noOpts).Perm (dbOne.rows.map rowToOut) ∧
     (getMessages dbOne noOpts).Pairwise (fun a b => b.ctime ≤ a.ctime) ∧
     getMessages dbOne { limit := some 1 } =
       (getMessages dbOne noOpts).take 1 ∧
     getMessages dbOne { limit := some 0 } = getMessages dbOne noOpts) :=
  ⟨by decide, getMessages_order_and_limit dbOne 1 (by decide)⟩

/-- C7: for the `levels` option, an entry that does not parse as an
integer is dropped without any error (removing it changes nothing);
whenever the effective set is non-empty, every returned record has a
level in it, and conversely every stored record with a level in it is
returned; and when the effective set is empty the option imposes no
restriction at all — the result equals that of an unfiltered call. -/
theorem levels_filtering (st : DB) (ls : List String) :
    (∀ x, parseIntJS x = none →
      getMessages st { levels := some (x :: ls) } =
        getMessages st { levels := some ls }) ∧
    (∀ m ∈ getMessages st { levels := some ls },
      effectiveLevels ls ≠ [] → (m.level : Int) ∈ effectiveLevels ls) ∧
    (∀ r ∈ st.rows, (r.level : Int) ∈ effectiveLevels ls →
      rowToOut r ∈ getMessages st { levels := some ls }) ∧
    (effectiveLevels ls = [] →
      getMessages st { levels := some ls } = getMessages st noOpts) := by
  refine ⟨?_, ?_, ?_, ?_⟩
  · intro x hx
    have hpt : ∀ r ∈ st.rows,
        rowMatches { levels := some (x :: ls) } r =
          rowMatches { levels := some ls } r := by
      intro r _
      rw [rowMatches_levels (x :: ls) r, rowMatches_levels ls r,
        effectiveLevels_cons_none x ls hx]
    rw [getMessages_no_limit st { levels := some (x :: ls) } rfl,
      getMessages_no_limit st { levels := some ls } rfl,
      List.filter_congr hpt]
  · intro m hm hne
    rw [getMessages_no_limit st { levels := some ls } rfl] at hm
    obtain ⟨r, hr, rfl⟩ := List.mem_map.mp hm
    have hr' := (List.mem_insertionSort ctimeDesc).mp hr
    have hmatch := (List.mem_filter.mp hr').2
    rw [rowMatches_levels, if_pos (List.length_pos.mpr hne)] at hmatch
    simpa [rowToOut] using hmatch
  · intro r hr hlev
    have hne : effectiveLevels ls ≠ [] := by
      intro h0
      rw [h0] at hlev
      exact absurd hlev (List.not_mem_nil _)
    rw [getMessages_no_limit st { levels := some ls } rfl]
    refine List.mem_map.mpr ⟨r, ?_, rfl⟩
    refine (List.mem_insertionSort ctimeDesc).mpr ?_
    refine List.mem_filter.mpr ⟨hr, ?_⟩
    rw [rowMatches_levels, if_pos (List.length_pos.mpr hne)]
    simpa using hlev
  · intro h0
    rw [getMessages_no_limit st { levels := some ls } rfl, getMessages_noOpts,
      List.filter_eq_self.mpr (fun r _ => by
        rw [rowMatches_levels, h0]
        simp)]

/-- C7 witness: the entry `"abc"` parses to NaN, so the effective set of
`levels: ["abc"]` is empty and the call equals an unrestricted one on the
one-record store. -/
theorem levels_filtering_witness :
    effectiveLevels ["abc"] = [] ∧
    getMessages dbOne { levels := some ["abc"] } = getMessages dbOne noOpts :=
  ⟨by decide, (levels_filtering dbOne ["abc"]).2.2.2 (by decide)⟩

/-- C8 counterexample: the claim says one failed delete or compaction
leaves the next purge scheduled before the error surfaces.  In the code
`setTimeout(purge, maxAgeInterval)` is the last statement of `purge` with
no try/catch, so a throwing delete propagates immediately: the firing
ends in an error with no new timer scheduled. -/
theorem purge_failure_cex :
    (purgeFire true false 10 ⟨[], true⟩).2 = Except.error "delete threw" ∧
    (purgeFire true false 10 ⟨[], true⟩).1.timeoutScheduled = false :=
  ⟨rfl, rfl⟩

/-- C8 amended: a firing of the retention loop schedules its next firing
exactly when both the delete and the compaction succeed; a failure in
either step propagates with no next firing scheduled, terminating the
recurring schedule. -/
theorem purge_reschedules_iff_success (df vf : Bool) (cutoff : Nat)
    (st : PurgeState) :
    (purgeFire df vf cutoff st).1.timeoutScheduled = true ↔
      (purgeFire df vf cutoff st).2 = .ok () := by
  cases df <;> cases vf <;> simp [purgeFire]

/-- C9 counterexample: the claim says a failing stderr mirror never makes
`write` raise.  The code has no try/catch around
`stderrStream?.write(...)`, so the throw propagates out of `log` — though
only after the insert has committed: the store gained its row. -/
theorem stderr_failure_cex :
    (log emptyDB true true 0 "c" 1 "m" none).2 =
      Except.error "stderr stream write threw" ∧
    (log emptyDB true true 0 "c" 1 "m" none).1.rows.length = 1 :=
  ⟨rfl, rfl⟩

/-- C9 amended: with mirroring enabled and a failing stderr stream, every
write still persists its record — the insert commits before the mirror
line is attempted — but the stream error then propagates out of the
write call instead of being swallowed. -/
theorem stderr_failure_commits_then_raises (st : DB) (now : Nat)
    (ctx msg : String) (level : Nat) (hlevel : level < 4) (d : Option JVal) :
    (log st true true now ctx level msg d).1.rows =
      st.rows ++ [newRow st now ctx level msg d] ∧
    (log st true true now ctx level msg d).2 =
      .error "stderr stream write threw" := by
  constructor
  · rw [log_fst]
  · interval_cases level <;> rfl

/-- C9 witness: the committed-but-raising write at severity 1 on the
fresh store. -/
theorem stderr_failure_commits_then_raises_witness :
    (1 : Nat) < 4 ∧
    (log emptyDB true true 0 "c" 1 "m" none).1.rows =
      emptyDB.rows ++ [newRow emptyDB 0 "c" 1 "m" none] ∧
    (log emptyDB true true 0 "c" 1 "m" none).2 =
      .error "stderr stream write threw" :=
  ⟨by decide,
   (stderr_failure_commits_then_raises emptyDB 0 "c" "m" 1 (by decide) none).1,
   (stderr_failure_commits_then_raises emptyDB 0 "c" "m" 1 (by decide) none).2⟩

/-- C10 counterexample: the implicit claim says `getMessages({ctxs: []})`
raises an error.  The empty array is truthy, so the code does add the
clause `ctx in ()` — but SQLite explicitly permits an empty list on the
right of `in` and evaluates it to false for every row, so on a one-record
store the call returns normally with the empty list: no restriction is
lifted and no error is raised. -/
theorem empty_ctxs_cex :
    getMessages dbOne { ctxs := some [] } = [] ∧
    (getMessages dbOne noOpts).length = 1 :=
  ⟨rfl, rfl⟩

/-- C10 amended: an empty `ctxs` list still contributes its membership
clause, which holds of no row, so `getMessages` returns the empty list
on every store — unlike an empty effective `levels` set it is a
match-nothing restriction, and no error is raised. -/
theorem empty_ctxs_returns_empty (st : DB) :
    getMessages st { ctxs := some [] } = [] := by
  rw [getMessages_no_limit st { ctxs := some [] } rfl]
  have h : st.rows.filter (rowMatches { ctxs := some [] }) = [] := by
    refine List.filter_eq_nil_iff.mpr ?_
    intro r _
    simp [rowMatches]
  rw [h]
  rfl

end SqliteLogger
